import Mathlib

/-!
# Verification of the video-clip-maker pipeline

A shallow embedding of `src/skills/video-clip-maker/video-clip-maker.py`.
External tool invocations (`yt-dlp`, `ffmpeg`, `ffprobe`, the Whisper
transcription engine, OpenCV availability) are modelled as explicit
environment values: a `Bool` for "the subprocess call completed without a
`CalledProcessError`", an `Option` for "the probe produced a parseable
value".  Durations and timestamps are exact rationals (`ℚ`); the CLI's
integer clip duration embeds into `ℚ`.  Every function is total: a Python
`try/except` that swallows an error and substitutes a value becomes a
`match`/`if` on the environment value.
-/

namespace VideoClipMaker

/-- A transcript segment as returned by the transcription engine
(`result['segments']` in `generate_subtitles`): start time, end time and
text.  `stop` embeds the Python key `end` (a Lean keyword). -/
structure Seg where
  start : ℚ
  stop : ℚ
  text : String
deriving DecidableEq

/-- `get_video_duration` (lines 109-123): runs `ffprobe` and parses its
output as a float; on any failure (the invocation errors, or the output
does not parse) the bare `except:` returns the constant `300`.  The probe
outcome is the parameter: `some d` when the invocation succeeded and its
output parsed to `d`, `none` otherwise.  The function is total — it never
raises. -/
def get_video_duration (probe : Option ℚ) : ℚ :=
  match probe with
  | some d => d
  | none => 300

/-- The uniform-midpoint window formula, written out identically at lines
106-107 (default branch), 153-154 (audio success), 158-159 (audio
fallback) and 166-167 (face): `start = max(0, (total - target) / 2)` with
the requested duration passed through unchanged. -/
def uniformMidpoint (total target : ℚ) : ℚ × ℚ :=
  (max 0 ((total - target) / 2), target)

/-- `detect_audio_highlights` (lines 125-160): extracts audio and reads it;
`extractOk` is whether that `try` block completed.  Both the success path
(lines 151-154) and the `except` fallback (lines 156-160) return the
midpoint window computed from `get_video_duration`. -/
def detect_audio_highlights (probe : Option ℚ) (target : ℚ)
    (extractOk : Bool) : ℚ × ℚ :=
  if extractOk then
    let total := get_video_duration probe
    (max 0 ((total - target) / 2), target)
  else
    let total := get_video_duration probe
    (max 0 ((total - target) / 2), target)

/-- `detect_face_segments` (lines 162-167): the simplified implementation
returns the midpoint window unconditionally. -/
def detect_face_segments (probe : Option ℚ) (target : ℚ) : ℚ × ℚ :=
  let total := get_video_duration probe
  (max 0 ((total - target) / 2), target)

/-- `detect_highlights` (lines 86-107).  When `HAS_OPENCV` is false it
returns `(get_video_duration(video_path), duration)` (line 93) — note the
first component is the probed total duration, not a midpoint offset.
Otherwise it dispatches on the method string; any method other than
`audio` and `face` falls to the midpoint default (lines 104-107). -/
def detect_highlights (hasOpenCV : Bool) (probe : Option ℚ) (dur : ℚ)
    (method : String) (audioExtractOk : Bool) : ℚ × ℚ :=
  if hasOpenCV = false then
    (get_video_duration probe, dur)
  else
    let total := get_video_duration probe
    if method = "audio" then
      detect_audio_highlights probe dur audioExtractOk
    else if method = "face" then
      detect_face_segments probe dur
    else
      (max 0 ((total - dur) / 2), dur)

/-- The exact width produced by the filter `scale=-2:1920` on a `w × h`
source: the height is forced to 1920 and the width follows the source
aspect ratio (`-2` additionally rounds to an even integer; the value is
kept exact here, the theorems stay away from the two-pixel boundary
band). -/
def scaledWidth (w h : ℕ) : ℚ :=
  (w : ℚ) * 1920 / (h : ℚ)

/-- The video-filter geometry of `create_vertical_clip` (lines 189-211):
`scale=-2:1920` followed by `crop=1080:1920` (a crop without `x:y` is
centred).  `ffmpeg` rejects a crop wider than its input, so the filter
yields a 1080×1920 frame exactly when the scaled width is at least 1080,
and fails otherwise.  The probed source dimensions default to 1920×1080
when the `ffprobe` call fails (lines 183-187). -/
def create_vertical_clip_filter (probeDims : Option (ℕ × ℕ)) :
    Option (ℕ × ℕ) :=
  let wh := probeDims.getD (1920, 1080)
  if 1080 ≤ scaledWidth wh.1 wh.2 then some (1080, 1920) else none

/-- `create_vertical_clip` (lines 169-219) as seen by `main`: `True` iff
the encode subprocess completed.  The encode fails when the crop is
infeasible for the source geometry (the filter rejects it) or when the
tool fails for any other reason (`encodeOk = false`). -/
def create_vertical_clip (probeDims : Option (ℕ × ℕ)) (encodeOk : Bool) :
    Bool :=
  (create_vertical_clip_filter probeDims).isSome && encodeOk

/-- `generate_subtitles` (lines 221-252): returns `(succeeded, written
transcript)`.  Without Whisper it returns `False` having written nothing
(lines 223-225).  `engine` is the outcome of `model.transcribe`: `none`
when the engine raises (caught at line 250, returns `False`), `some segs`
when it returns a segment list — which is then written to the SRT file
verbatim, in engine order, with no inspection of the timestamps, and the
function returns `True`. -/
def generate_subtitles (hasWhisper : Bool) (engine : Option (List Seg)) :
    Bool × Option (List Seg) :=
  if hasWhisper = false then
    (false, none)
  else
    match engine with
    | none => (false, none)
    | some segs => (true, some segs)

/-- Whether a segment list has non-decreasing start times (the invariant
the specification asks `TranscriptGenerator` to validate). -/
def startsSorted : List Seg → Bool
  | [] => true
  | [_] => true
  | a :: b :: rest => (decide (a.start ≤ b.start)) && startsSorted (b :: rest)

/-- The tool outcomes of the three `ffmpeg` attempts inside
`burn_subtitles`: `failN = true` means attempt `N` raised
`CalledProcessError`. -/
structure BurnEnv where
  fail1 : Bool
  fail2 : Bool
  fail3 : Bool
deriving DecidableEq

/-- Observable trace of one `burn_subtitles` call: which attempts ran (in
order), which output paths the attempted writes targeted, whether the
function returned `True`, which attempt produced the surviving output, and
the lifecycle of the temporary SRT copy. -/
structure BurnTrace where
  attempts : List ℕ
  writes : List (ℕ × String)
  success : Bool
  producedBy : Option ℕ
  tmpCreated : Bool
  tmpUnlinked : Bool
deriving DecidableEq

/-- `burn_subtitles` (lines 261-337).  If the subtitle file is absent it
returns `False` at once, before the temporary SRT copy is made (lines
263-265).  Otherwise it copies the SRT to a temp file and runs the chain:
attempt 1 (plain `subtitles=` filter, lines 281-294), on
`CalledProcessError` attempt 2 (`force_style`, lines 304-317), then
attempt 3 (re-encode without captions, lines 320-331).  Every attempt
targets the same `output_path` argument with `-y`.  Each success path
unlinks the temp SRT and returns `True`; the all-fail path unlinks it
(inside `try/except OSError`) and returns `False`. -/
def burn_subtitles (srtExists : Bool) (env : BurnEnv) (outPath : String) :
    BurnTrace :=
  if srtExists = false then
    { attempts := [], writes := [], success := false, producedBy := none,
      tmpCreated := false, tmpUnlinked := false }
  else if env.fail1 = false then
    { attempts := [1], writes := [(1, outPath)], success := true,
      producedBy := some 1, tmpCreated := true, tmpUnlinked := true }
  else if env.fail2 = false then
    { attempts := [1, 2], writes := [(1, outPath), (2, outPath)],
      success := true, producedBy := some 2, tmpCreated := true,
      tmpUnlinked := true }
  else if env.fail3 = false then
    { attempts := [1, 2, 3],
      writes := [(1, outPath), (2, outPath), (3, outPath)], success := true,
      producedBy := some 3, tmpCreated := true, tmpUnlinked := true }
  else
    { attempts := [1, 2, 3],
      writes := [(1, outPath), (2, outPath), (3, outPath)], success := false,
      producedBy := none, tmpCreated := true, tmpUnlinked := true }

/-- `generate_thumbnail` (lines 339-372): the timestamp-seek extraction,
then on `CalledProcessError` the first-frame fallback; `True` iff either
subprocess completed. -/
def generate_thumbnail (seekOk firstFrameOk : Bool) : Bool :=
  if seekOk then true
  else if firstFrameOk then true
  else false

/-- The parsed CLI arguments of `main` (lines 375-383). -/
structure Args where
  url : String
  duration : ℚ
  quality : String
  outputDir : String
  highlightMethod : String
  subtitleLang : String
deriving DecidableEq

/-- All external-tool outcomes one run of the pipeline can observe, fixed
up front: the download, the two probes, the encode, capability flags, the
transcription engine, the three caption attempts and the two thumbnail
attempts. -/
structure Env where
  downloadOk : Bool
  probeDuration : Option ℚ
  probeDims : Option (ℕ × ℕ)
  encodeOk : Bool
  hasOpenCV : Bool
  audioExtractOk : Bool
  hasWhisper : Bool
  engineSegs : Option (List Seg)
  burnEnv : BurnEnv
  thumbSeekOk : Bool
  thumbFirstFrameOk : Bool
deriving DecidableEq

/-- The metadata record written by `main` (lines 433-445): the
`output_files` mapping plus the chosen window.  `thumbnail` and
`subtitles` are `Option` so that "recorded as absent" (`None` in the
JSON) is expressible; the code writes `str(thumbnail_path)`
unconditionally but guards `subtitles` with an existence check. -/
structure Metadata where
  original_url : String
  clip_start : ℚ
  clip_duration : ℚ
  vertical_clip : String
  final_clip : String
  thumbnail : Option String
  subtitles : Option String
deriving DecidableEq

/-- Terminal outcome of `main`: `aborted` is `sys.exit(1)`, `complete m`
is normal termination (exit 0) having written metadata `m`. -/
inductive Outcome where
  | aborted : Outcome
  | complete : Metadata → Outcome
deriving DecidableEq

/-- Process exit code of an outcome. -/
def exitCode : Outcome → ℕ
  | .aborted => 1
  | .complete _ => 0

/-- `output_dir / f'vertical_{timestamp}.mp4'` (line 405). -/
def verticalPath (args : Args) (ts : String) : String :=
  args.outputDir ++ "/vertical_" ++ ts ++ ".mp4"

/-- `output_dir / f'subtitles_{timestamp}.srt'` (line 411). -/
def subtitlesPath (args : Args) (ts : String) : String :=
  args.outputDir ++ "/subtitles_" ++ ts ++ ".srt"

/-- `output_dir / f'final_{timestamp}.mp4'` (line 416). -/
def finalPath (args : Args) (ts : String) : String :=
  args.outputDir ++ "/final_" ++ ts ++ ".mp4"

/-- `output_dir / f'thumbnail_{timestamp}.png'` (line 429). -/
def thumbnailPath (args : Args) (ts : String) : String :=
  args.outputDir ++ "/thumbnail_" ++ ts ++ ".png"

/-- `main` from line 395 on (after the dependency check and directory
setup; `ts` is the run timestamp of line 393).  Download failure and
encode failure exit with code 1; every later stage's result is consumed
as a value.  The subtitle file exists iff Whisper is present and the
engine produced segments (`generate_subtitles` writes it then).  If it
exists, `burn_subtitles` runs; on its failure the final path falls back to
the vertical clip (lines 416-426).  The thumbnail return value is
discarded (line 430) and the metadata records the thumbnail path
unconditionally, while `subtitles` is `None` unless the SRT exists
(line 441). -/
def main_run (args : Args) (ts : String) (env : Env) : Outcome :=
  if env.downloadOk = false then
    .aborted
  else
    let hl := detect_highlights env.hasOpenCV env.probeDuration
      args.duration args.highlightMethod env.audioExtractOk
    let vPath := verticalPath args ts
    if create_vertical_clip env.probeDims env.encodeOk = false then
      .aborted
    else
      let subs := if env.hasWhisper then
          generate_subtitles true env.engineSegs
        else (false, none)
      let srtThere := subs.2.isSome
      let fPath := finalPath args ts
      let burned := burn_subtitles srtThere env.burnEnv fPath
      let chosenFinal := if srtThere then
          (if burned.success then fPath else vPath)
        else vPath
      let _thumbOk := generate_thumbnail env.thumbSeekOk
        env.thumbFirstFrameOk
      .complete
        { original_url := args.url
          clip_start := hl.1
          clip_duration := hl.2
          vertical_clip := vPath
          final_clip := chosenFinal
          thumbnail := some (thumbnailPath args ts)
          subtitles := if srtThere then some (subtitlesPath args ts)
            else none }

/-- Example CLI arguments used by concrete witnesses: the defaults of the
argument parser with a placeholder URL. -/
def argsEx : Args :=
  { url := "https://example.com/v", duration := 60, quality := "1080p",
    outputDir := "out", highlightMethod := "audio", subtitleLang := "en" }

/-- An engine output whose second segment starts before the first ends a
well-ordered prefix: start times 5 then 1. -/
def badSegs : List Seg := [⟨5, 6, "a"⟩, ⟨1, 2, "b"⟩]

/-- A well-formed one-segment engine output for witnesses. -/
def segsEx : List Seg := [⟨0, 2, "hi"⟩]

/-- C3, counterexample: a 30-second source with a requested 60-second
window yields the window `(0, 60)` — the start is clamped to 0 but the
duration is passed through unchanged, not clamped to the 30-second total
as the claim states. -/
theorem c3_counterexample :
    detect_highlights true (some 30) 60 "audio" true = (0, 60) ∧
    detect_highlights true (some 30) 60 "audio" true ≠ ((0 : ℚ), (30 : ℚ)) := by
  have h : detect_highlights true (some 30) 60 "audio" true = (0, 60) := by
    simp [detect_highlights, detect_audio_highlights, get_video_duration]
    norm_num
  refine ⟨h, ?_⟩
  rw [h]
  simp

/-- C3, amended: for every requested window duration at least the probed
total duration, `detect_highlights` (OpenCV present, any method) returns
start 0 — but the duration component is the requested duration unchanged;
no clamping to the total duration happens. -/
theorem c3_oversized_window (total win : ℚ) (method : String) (ok : Bool)
    (h : total ≤ win) :
    detect_highlights true (some total) win method ok = (0, win) := by
  have hmid : max (0 : ℚ) ((total - win) / 2) = 0 := by
    rw [max_eq_left]
    linarith
  by_cases ha : method = "audio"
  · simp [detect_highlights, detect_audio_highlights, get_video_duration,
      ha, hmid]
  · by_cases hf : method = "face"
    · simp [detect_highlights, detect_face_segments, get_video_duration,
        ha, hf, hmid]
    · simp [detect_highlights, get_video_duration, ha, hf, hmid]

/-- Witness for the amended C3 at total 30 s, requested 60 s. -/
theorem c3_oversized_window_witness :
    (30 : ℚ) ≤ 60 ∧
    detect_highlights true (some 30) 60 "audio" true = (0, 60) :=
  ⟨by norm_num, c3_oversized_window 30 60 "audio" true (by norm_num)⟩

/-- C4, evaluation at the failing input: with OpenCV absent, probed
duration 300 s and requested window 60 s, `detect_highlights` returns
`(300, 60)` — the start is the whole probed duration (line 93 returns
`get_video_duration(video_path)` as the offset), not the uniform-midpoint
window `(120, 60)` that the claim, the specification and the code's own
comment ("Return middle segment as fallback") require. -/
theorem c4_opencv_missing_not_midpoint :
    detect_highlights false (some 300) 60 "audio" true = (300, 60) ∧
    uniformMidpoint 300 60 = (120, 60) ∧
    detect_highlights false (some 300) 60 "audio" true ≠
      uniformMidpoint 300 60 := by
  have h1 : detect_highlights false (some 300) 60 "audio" true = (300, 60) := by
    simp [detect_highlights, get_video_duration]
  have h2 : uniformMidpoint 300 60 = (120, 60) := by
    simp [uniformMidpoint]
    norm_num
  refine ⟨h1, h2, ?_⟩
  rw [h1, h2]
  simp

/-- C5, counterexample: a 720×1920 source (narrower than 9:16) scales to
width 720 under `scale=-2:1920`, so the `crop=1080:1920` step is
infeasible and the transform produces no 1080×1920 output. -/
theorem c5_counterexample :
    create_vertical_clip_filter (some (720, 1920)) = none ∧
    create_vertical_clip_filter (some (720, 1920)) ≠ some (1080, 1920) := by
  have h : create_vertical_clip_filter (some (720, 1920)) = none := by
    simp [create_vertical_clip_filter, scaledWidth]
    norm_num
  exact ⟨h, by rw [h]; simp⟩

/-- C5, amended: the transform always scales to match the target height
and center-crops the width (it does not pick the limiting dimension); the
output is exactly 1080×1920 — deterministically, for identical inputs —
for every probed source whose aspect ratio is at least 1080:1920, and for
the defaulted 1920×1080 dimensions on probe failure.  For narrower
sources the crop exceeds the scaled width and the encode fails. -/
theorem c5_wide_source_target_dims (w h : ℕ) (hpos : 0 < h)
    (hwide : 1080 * h ≤ 1920 * w) :
    create_vertical_clip_filter (some (w, h)) = some (1080, 1920) ∧
    create_vertical_clip_filter none = some (1080, 1920) := by
  constructor
  · have hq : (1080 : ℚ) ≤ scaledWidth w h := by
      have hh : (0 : ℚ) < (h : ℚ) := by exact_mod_cast hpos
      rw [scaledWidth, le_div_iff₀ hh]
      have hcast : (1080 : ℚ) * h ≤ 1920 * w := by exact_mod_cast hwide
      linarith
    simp [create_vertical_clip_filter, hq]
  · simp [create_vertical_clip_filter, scaledWidth]
    norm_num

/-- Witness for the amended C5 at a 1920×1080 source. -/
theorem c5_wide_source_target_dims_witness :
    0 < 1080 ∧ 1080 * 1080 ≤ 1920 * 1920 ∧
    create_vertical_clip_filter (some (1920, 1080)) = some (1080, 1920) :=
  ⟨by norm_num, by norm_num,
    (c5_wide_source_target_dims 1920 1080 (by norm_num) (by norm_num)).1⟩

/-- C6, counterexample: an engine output whose start times decrease
(`badSegs`) is not discarded — `generate_subtitles` writes it verbatim and
reports success, instead of reporting transcription failure. -/
theorem c6_counterexample :
    startsSorted badSegs = false ∧
    generate_subtitles true (some badSegs) = (true, some badSegs) ∧
    generate_subtitles true (some badSegs) ≠
      ((false, none) : Bool × Option (List Seg)) := by
  refine ⟨?_, rfl, by simp [generate_subtitles]⟩
  simp [startsSorted, badSegs]

/-- C6, amended: `generate_subtitles` performs no ordering validation at
all: every engine segment sequence, monotone or not, is written verbatim
and the stage reports success; failure is reported exactly when the
engine raises or the transcription capability is absent. -/
theorem c6_no_ordering_validation (segs : List Seg)
    (engine : Option (List Seg)) :
    generate_subtitles true (some segs) = (true, some segs) ∧
    generate_subtitles true none = (false, none) ∧
    generate_subtitles false engine = (false, none) := by
  refine ⟨rfl, rfl, ?_⟩
  simp [generate_subtitles]

/-- C8, counterexample: with all three attempts failing, every attempt's
write targets the same output path, so the written locations are not
pairwise distinct. -/
theorem c8_counterexample :
    ((burn_subtitles true ⟨true, true, true⟩ "final.mp4").writes.map
      Prod.snd) = ["final.mp4", "final.mp4", "final.mp4"] ∧
    ¬ List.Pairwise (fun a b => a ≠ b)
      ((burn_subtitles true ⟨true, true, true⟩ "final.mp4").writes.map
        Prod.snd) := by
  have h : ((burn_subtitles true ⟨true, true, true⟩ "final.mp4").writes.map
      Prod.snd) = ["final.mp4", "final.mp4", "final.mp4"] := by
    simp [burn_subtitles]
  refine ⟨h, ?_⟩
  rw [h]
  intro hp
  rcases hp with _ | ⟨h1, _⟩
  exact (h1 "final.mp4" (by simp)) rfl

/-- C8, amended: every attempt of the chain writes to the one shared
output location passed in; a failed partial write nevertheless never
follows — and so never corrupts — a successfully produced artifact,
because the chain short-circuits: no attempt with a higher index than the
successful one ever runs. -/
theorem c8_shared_output_short_circuit (env : BurnEnv) (out : String) :
    (∀ wr ∈ (burn_subtitles true env out).writes, wr.2 = out) ∧
    (∀ i, (burn_subtitles true env out).producedBy = some i →
      ∀ j ∈ (burn_subtitles true env out).attempts, j ≤ i) := by
  obtain ⟨f1, f2, f3⟩ := env
  cases f1 <;> cases f2 <;> cases f3 <;> simp [burn_subtitles]

/-- Witness for the amended C8: attempt 2 succeeds after attempt 1
failed; the write of attempt 1 targeted the shared path and no attempt
after 2 ran. -/
theorem c8_shared_output_short_circuit_witness :
    (((1 : ℕ), "o").2 = "o") ∧ ((1 : ℕ) ≤ 2) :=
  ⟨(c8_shared_output_short_circuit ⟨true, false, true⟩ "o").1 (1, "o")
      (by simp [burn_subtitles]),
    (c8_shared_output_short_circuit ⟨true, false, true⟩ "o").2 2
      (by simp [burn_subtitles]) 1 (by simp [burn_subtitles])⟩

/-- C9: whenever the subtitle file exists, `burn_subtitles` creates the
temporary SRT copy and unlinks it on every exit path — the three success
returns and the all-fail return alike; on the early no-subtitle-file
return no temporary copy was created. -/
theorem c9_temp_srt_scoped (env : BurnEnv) (out : String) :
    (burn_subtitles true env out).tmpCreated = true ∧
    (burn_subtitles true env out).tmpUnlinked = true ∧
    (burn_subtitles false env out).tmpCreated = false := by
  obtain ⟨f1, f2, f3⟩ := env
  cases f1 <;> cases f2 <;> cases f3 <;> simp [burn_subtitles]

/-- C10: when the duration probe fails (tool error or unparseable
output), `get_video_duration` returns the constant 300 — it is total, so
it never raises — and that constant, not any real duration, feeds the
midpoint computation of the highlight window. -/
theorem c10_duration_probe_fallback (win : ℚ) (ok : Bool) :
    get_video_duration none = 300 ∧
    detect_highlights true none win "audio" ok =
      (max 0 ((300 - win) / 2), win) := by
  refine ⟨rfl, ?_⟩
  cases ok <;>
    simp [detect_highlights, detect_audio_highlights, get_video_duration]

/-- An environment whose three caption-burn attempts all fail while
acquisition, encode and transcription succeed. -/
def envAllBurnFail : Env :=
  { downloadOk := true, probeDuration := some 300, probeDims := none,
    encodeOk := true, hasOpenCV := true, audioExtractOk := true,
    hasWhisper := true, engineSegs := some segsEx,
    burnEnv := ⟨true, true, true⟩, thumbSeekOk := true,
    thumbFirstFrameOk := true }

/-- An environment in which every stage after the core transform fails:
no OpenCV, audio extraction fails, the transcription engine raises, all
caption attempts fail, both thumbnail attempts fail — but the download
and the encode succeed. -/
def envLateFailures : Env :=
  { downloadOk := true, probeDuration := none, probeDims := none,
    encodeOk := true, hasOpenCV := false, audioExtractOk := false,
    hasWhisper := true, engineSegs := none,
    burnEnv := ⟨true, true, true⟩, thumbSeekOk := false,
    thumbFirstFrameOk := false }

/-- An environment whose download fails. -/
def envNoDownload : Env :=
  { downloadOk := false, probeDuration := some 300, probeDims := none,
    encodeOk := true, hasOpenCV := true, audioExtractOk := true,
    hasWhisper := false, engineSegs := none,
    burnEnv := ⟨false, false, false⟩, thumbSeekOk := true,
    thumbFirstFrameOk := true }

/-- An environment in which both thumbnail attempts fail and everything
else succeeds (no transcription capability, so no caption pass runs). -/
def envThumbFail : Env :=
  { downloadOk := true, probeDuration := some 300, probeDims := none,
    encodeOk := true, hasOpenCV := true, audioExtractOk := true,
    hasWhisper := false, engineSegs := none,
    burnEnv := ⟨false, false, false⟩, thumbSeekOk := false,
    thumbFirstFrameOk := false }

/-- C1: with a subtitle file present, `burn_subtitles` tries the plain
overlay first; the styled overlay runs only if the plain attempt failed;
the bare re-encode only if both failed; the first attempt that completes
determines the output; the call succeeds unless all three attempts fail.
And in a run whose three attempts all fail (with download and encode
succeeding and a transcript present), `main` still completes with exit
code 0 and the final clip is the original vertical (encoded) clip,
untouched. -/
theorem c1_caption_fallback_chain (env : BurnEnv) (out : String)
    (args : Args) (ts : String) (penv : Env)
    (hdl : penv.downloadOk = true)
    (henc : create_vertical_clip penv.probeDims penv.encodeOk = true)
    (hw : penv.hasWhisper = true)
    (hseg : penv.engineSegs.isSome = true)
    (hfail : penv.burnEnv = ⟨true, true, true⟩) :
    (burn_subtitles true env out).attempts.head? = some 1 ∧
    (2 ∈ (burn_subtitles true env out).attempts ↔ env.fail1 = true) ∧
    (3 ∈ (burn_subtitles true env out).attempts ↔
      (env.fail1 = true ∧ env.fail2 = true)) ∧
    (burn_subtitles true env out).producedBy =
      (if env.fail1 = false then some 1
       else if env.fail2 = false then some 2
       else if env.fail3 = false then some 3
       else none) ∧
    ((burn_subtitles true env out).success = true ↔
      ¬(env.fail1 = true ∧ env.fail2 = true ∧ env.fail3 = true)) ∧
    main_run args ts penv = .complete
      { original_url := args.url
        clip_start := (detect_highlights penv.hasOpenCV penv.probeDuration
          args.duration args.highlightMethod penv.audioExtractOk).1
        clip_duration := (detect_highlights penv.hasOpenCV
          penv.probeDuration args.duration args.highlightMethod
          penv.audioExtractOk).2
        vertical_clip := verticalPath args ts
        final_clip := verticalPath args ts
        thumbnail := some (thumbnailPath args ts)
        subtitles := some (subtitlesPath args ts) } ∧
    exitCode (main_run args ts penv) = 0 := by
  obtain ⟨segs, hsegs⟩ := Option.isSome_iff_exists.mp hseg
  have hmain : main_run args ts penv = .complete
      { original_url := args.url
        clip_start := (detect_highlights penv.hasOpenCV penv.probeDuration
          args.duration args.highlightMethod penv.audioExtractOk).1
        clip_duration := (detect_highlights penv.hasOpenCV
          penv.probeDuration args.duration args.highlightMethod
          penv.audioExtractOk).2
        vertical_clip := verticalPath args ts
        final_clip := verticalPath args ts
        thumbnail := some (thumbnailPath args ts)
        subtitles := some (subtitlesPath args ts) } := by
    simp [main_run, hdl, henc, hw, hsegs, hfail, generate_subtitles,
      burn_subtitles]
  obtain ⟨f1, f2, f3⟩ := env
  refine ⟨?_, ?_, ?_, ?_, ?_, hmain, by rw [hmain]; rfl⟩ <;>
    cases f1 <;> cases f2 <;> cases f3 <;> simp [burn_subtitles]

/-- Witness for C1: all three attempts fail in `envAllBurnFail`; the run
completes with exit 0 and delivers the vertical clip as the final clip. -/
theorem c1_caption_fallback_chain_witness :
    main_run argsEx "TS" envAllBurnFail = .complete
      { original_url := argsEx.url
        clip_start := (detect_highlights envAllBurnFail.hasOpenCV
          envAllBurnFail.probeDuration argsEx.duration
          argsEx.highlightMethod envAllBurnFail.audioExtractOk).1
        clip_duration := (detect_highlights envAllBurnFail.hasOpenCV
          envAllBurnFail.probeDuration argsEx.duration
          argsEx.highlightMethod envAllBurnFail.audioExtractOk).2
        vertical_clip := verticalPath argsEx "TS"
        final_clip := verticalPath argsEx "TS"
        thumbnail := some (thumbnailPath argsEx "TS")
        subtitles := some (subtitlesPath argsEx "TS") } ∧
    exitCode (main_run argsEx "TS" envAllBurnFail) = 0 := by
  have h := c1_caption_fallback_chain ⟨true, true, true⟩ "o" argsEx "TS"
    envAllBurnFail rfl
    (by simp [envAllBurnFail, create_vertical_clip,
      create_vertical_clip_filter, scaledWidth]; norm_num)
    rfl rfl rfl
  exact ⟨h.2.2.2.2.2.1, h.2.2.2.2.2.2⟩

/-- C2: once the download has succeeded and the core transform
(`create_vertical_clip`) has succeeded, the run always terminates
normally with exit code 0, whatever the outcomes of subtitle generation,
caption burning and thumbnail extraction; and an aborted run can only be
caused by a download failure or a core-transform failure. -/
theorem c2_transformed_reaches_complete (args : Args) (ts : String)
    (env : Env) :
    (env.downloadOk = true →
      create_vertical_clip env.probeDims env.encodeOk = true →
      (∃ m, main_run args ts env = .complete m) ∧
        exitCode (main_run args ts env) = 0) ∧
    (main_run args ts env = .aborted →
      env.downloadOk = false ∨
        create_vertical_clip env.probeDims env.encodeOk = false) := by
  constructor
  · intro hd hc
    rw [main_run]
    simp only [hd, hc]
    simp [exitCode]
  · intro hab
    cases hd : env.downloadOk
    · exact Or.inl rfl
    · cases hc : create_vertical_clip env.probeDims env.encodeOk
      · exact Or.inr rfl
      · rw [main_run] at hab
        simp [hd, hc] at hab

/-- Witness for C2: `envLateFailures` fails every post-transform stage
yet the run exits 0; `envNoDownload` aborts and its download indeed
failed. -/
theorem c2_transformed_reaches_complete_witness :
    exitCode (main_run argsEx "TS" envLateFailures) = 0 ∧
    (envNoDownload.downloadOk = false ∨
      create_vertical_clip envNoDownload.probeDims envNoDownload.encodeOk
        = false) :=
  ⟨((c2_transformed_reaches_complete argsEx "TS" envLateFailures).1 rfl
      (by simp [envLateFailures, create_vertical_clip,
        create_vertical_clip_filter, scaledWidth]; norm_num)).2,
    (c2_transformed_reaches_complete argsEx "TS" envNoDownload).2
      (by rw [main_run]; simp [envNoDownload])⟩

/-- C7, counterexample: both thumbnail attempts fail, the run completes,
but the metadata records the thumbnail path unconditionally — the
`ProductionRecord` does not record the thumbnail as absent. -/
theorem c7_counterexample :
    generate_thumbnail envThumbFail.thumbSeekOk
      envThumbFail.thumbFirstFrameOk = false ∧
    main_run argsEx "TS" envThumbFail = .complete
      { original_url := argsEx.url
        clip_start := 120
        clip_duration := 60
        vertical_clip := verticalPath argsEx "TS"
        final_clip := verticalPath argsEx "TS"
        thumbnail := some (thumbnailPath argsEx "TS")
        subtitles := none } ∧
    some (thumbnailPath argsEx "TS") ≠ (none : Option String) := by
  refine ⟨rfl, ?_, by simp⟩
  rw [main_run]
  simp [envThumbFail, argsEx, create_vertical_clip,
    create_vertical_clip_filter, scaledWidth, generate_subtitles,
    burn_subtitles, detect_highlights, detect_audio_highlights,
    get_video_duration]
  norm_num

/-- C7, amended: when both thumbnail attempts fail (and the download and
core transform succeeded), the run still completes — non-fatally — but
the `ProductionRecord` records the thumbnail path unconditionally rather
than recording the thumbnail as absent. -/
theorem c7_thumbnail_failure_nonfatal (args : Args) (ts : String)
    (env : Env) (hd : env.downloadOk = true)
    (hc : create_vertical_clip env.probeDims env.encodeOk = true)
    (h1 : env.thumbSeekOk = false) (h2 : env.thumbFirstFrameOk = false) :
    generate_thumbnail env.thumbSeekOk env.thumbFirstFrameOk = false ∧
    ∃ m, main_run args ts env = .complete m ∧
      m.thumbnail = some (thumbnailPath args ts) := by
  constructor
  · simp [generate_thumbnail, h1, h2]
  · rw [main_run]
    simp only [hd, hc]
    simp

/-- Witness for the amended C7 on `envThumbFail`. -/
theorem c7_thumbnail_failure_nonfatal_witness :
    generate_thumbnail envThumbFail.thumbSeekOk
      envThumbFail.thumbFirstFrameOk = false ∧
    ∃ m, main_run argsEx "TS" envThumbFail = .complete m ∧
      m.thumbnail = some (thumbnailPath argsEx "TS") :=
  c7_thumbnail_failure_nonfatal argsEx "TS" envThumbFail rfl
    (by simp [envThumbFail, create_vertical_clip,
      create_vertical_clip_filter, scaledWidth]; norm_num)
    rfl rfl

end VideoClipMaker
